import Mathlib

/-!
Shallow embedding of the Event-Service repository
(`src/main.py`, `src/model.py`, `src/routers/events.py`).

Modelling conventions, fixed once for the whole development:

* Datetimes (`DATETIME` columns, Python `datetime` values) are modelled as
  integers on a single totally ordered timeline; `DATE(t)` is modelled as
  division by 86400 (whole days).  Only order comparisons on datetimes occur
  in the source, so this is faithful.
* The relational store (MySQL tables `Events`, `Tasks`, `Interests`,
  `EventInterests`) is one `Store` value holding lists of rows, plus the
  database clock `now` used for `NOW()` / `DEFAULT CURRENT_TIMESTAMP`.
* `raise HTTPException(status_code, detail)` is modelled by the
  `HandlerResult.error` constructor carrying the code and the detail string;
  a handler returns its result together with the store it leaves behind.
* `generate_etag` (`events.py` lines 48-51) is `md5(json.dumps(data,
  sort_keys=True, default=str))`.  Only *equality* of fingerprints is ever
  consumed, so the md5 digest is modelled as the canonical serialization
  itself (a deterministic injective-up-to-serialization string); collisions
  of md5 are abstracted away.
* The `x-firebase-uid` header is an `Option String`; Python's
  `if not firebase_uid` truthiness check fails for `None` and for `""`.
-/

/-- Datetimes live on an integer timeline. -/
abbrev DTime := Int

/-- `DATE(t)` of MySQL, at whole-day granularity. -/
def dateOf (t : DTime) : Int := Int.fdiv t 86400

/-- A row of the `Events` table, with the columns every query in
`src/routers/events.py` touches (`event_id, title, description, location,
start_time, end_time, capacity, created_by, created_at`). -/
structure EventRow where
  event_id : Nat
  title : String
  description : Option String
  location : Option String
  start_time : DTime
  end_time : DTime
  capacity : Option Int
  created_by : Int
  created_at : DTime
deriving Repr, DecidableEq

/-- The four task lifecycle states of the `Tasks` table. -/
inductive TaskStatus where
  | pending
  | processing
  | completed
  | failed
deriving Repr, DecidableEq

/-- A row of the `Tasks` table (columns read by `get_task_status`,
written by `create_event_async` and `process_event_async`). -/
structure TaskRow where
  task_id : String
  task_type : String
  status : TaskStatus
  request_data : String
  result_data : Option String
  error_message : Option String
  created_at : DTime
  started_at : Option DTime
  completed_at : Option DTime
  created_by : Int
deriving Repr, DecidableEq

/-- A row of the `Interests` table. -/
structure InterestRow where
  interest_id : Nat
  interest_name : String
deriving Repr, DecidableEq

/-- A row of the `EventInterests` association table. -/
structure EventInterestRow where
  event_id : Nat
  interest_id : Nat
deriving Repr, DecidableEq

/-- The relational store: the four tables plus the database clock. -/
structure Store where
  events : List EventRow
  tasks : List TaskRow
  interests : List InterestRow
  eventInterests : List EventInterestRow
  now : DTime
deriving Repr, DecidableEq

/-- `raise HTTPException(code, detail)` vs. a normal return value. -/
inductive HandlerResult (α : Type) where
  | ok (val : α)
  | error (code : Nat) (detail : String)
deriving Repr, DecidableEq

/-- The HTTP status code of a result, `none` on success. -/
def HandlerResult.code : HandlerResult α → Option Nat
  | .ok _ => none
  | .error c _ => some c

/-- `get_event_interests` (events.py lines 70-83): join of `Interests` and
`EventInterests` filtered on the event id. -/
def get_event_interests (s : Store) (event_id : Nat) : List InterestRow :=
  (s.eventInterests.filter (fun ei => ei.event_id = event_id)).filterMap
    (fun ei => s.interests.find? (fun i => i.interest_id = ei.interest_id))

/-- Python's `str.strip('"')`: drop every leading and trailing `"`. -/
def stripQuoteChars (s : String) : String :=
  let cs := (s.toList.dropWhile (fun c => c = '"'))
  String.mk ((cs.reverse.dropWhile (fun c => c = '"')).reverse)

/-- Does the character list `needle` start the list `hay`? -/
def charsStartWith : List Char → List Char → Bool
  | _, [] => true
  | [], _ :: _ => false
  | h :: hs, n :: ns => h = n && charsStartWith hs ns

/-- Does `hay` contain `needle` as a contiguous run (SQL `LIKE '%x%'`)? -/
def charsContain : List Char → List Char → Bool
  | [], needle => needle.isEmpty
  | hay@(_ :: rest), needle => charsStartWith hay needle || charsContain rest needle

/-- Canonical serialization of an `Option` field, standing for
`json.dumps(..., default=str)` output of a nullable column. -/
def optField : Option String → String
  | none => "null"
  | some v => v

/-- Canonical serialization of an optional integer-like field. -/
def optIntField : Option Int → String
  | none => "null"
  | some v => toString v

/-- Canonical serialization of the interests list attached to an event dict. -/
def interestsField (ints : List InterestRow) : String :=
  String.join (ints.map (fun i =>
    "(id:" ++ toString i.interest_id ++ ",name:" ++ i.interest_name ++ ");"))

/-- `generate_etag` (events.py lines 48-51) applied to an event dict with its
`interests` key, as `update_event` builds it (lines 637-638): the md5 of the
key-sorted JSON dump is modelled as the canonical key-sorted serialization
itself (see file header). -/
def generate_etag_event (e : EventRow) (ints : List InterestRow) : String :=
  "capacity:" ++ optIntField e.capacity ++
  "|created_at:" ++ toString e.created_at ++
  "|created_by:" ++ toString e.created_by ++
  "|description:" ++ optField e.description ++
  "|end_time:" ++ toString e.end_time ++
  "|event_id:" ++ toString e.event_id ++
  "|interests:" ++ interestsField ints ++
  "|location:" ++ optField e.location ++
  "|start_time:" ++ toString e.start_time ++
  "|title:" ++ e.title

/-- `get_firebase_uid_from_header` (events.py lines 38-43): the header is
present and truthy. -/
def uidPresent : Option String → Bool
  | none => false
  | some u => !(u == "")

/-- Detail string of the 401 raised by `get_firebase_uid_from_header`. -/
def authMissingDetail : String :=
  "Authentication required - x-firebase-uid header missing"

/-- The update payload as the `update_event` handler consumes it
(`update.dict(exclude_unset=True)`, events.py line 648): each field is
present (`some`) exactly when the request supplied it.  The handler's guards
(lines 651-708) read the keys `start_time` and `end_time`; see the C7
analysis for the mismatch between this handler-level payload and the
`EventUpdate` schema of `model.py`. -/
structure EventUpdate where
  title : Option String := none
  description : Option String := none
  location : Option String := none
  start_time : Option DTime := none
  end_time : Option DTime := none
deriving Repr, DecidableEq

/-- `if not fields` (events.py line 714): is at least one column updated? -/
def EventUpdate.hasFields (u : EventUpdate) : Bool :=
  u.title.isSome || u.description.isSome || u.location.isSome ||
  u.start_time.isSome || u.end_time.isSome

/-- The dynamic `UPDATE Events SET ...` built at events.py lines 710-722:
overwrite exactly the supplied columns. -/
def applyUpdate (u : EventUpdate) (e : EventRow) : EventRow :=
  { e with
    title := u.title.getD e.title
    description := match u.description with | none => e.description | some d => some d
    location := match u.location with | none => e.location | some l => some l
    start_time := u.start_time.getD e.start_time
    end_time := u.end_time.getD e.end_time }

/-- The eTag revalidation guard of `update_event` (events.py lines 635-642):
with an `If-Match` header present, reject when the stripped header differs
from the fingerprint recomputed over the current row (with its interests). -/
def etagMismatch (s : Store) (event_id : Nat) (e : EventRow)
    (if_match : Option String) : Bool :=
  match if_match with
  | none => false
  | some v => !(stripQuoteChars v == generate_etag_event e (get_event_interests s event_id))

/-- `SELECT ... FROM Events WHERE event_id = %s` followed by `fetchone()`. -/
def findEvent (s : Store) (event_id : Nat) : Option EventRow :=
  s.events.find? (fun e => e.event_id = event_id)

/-- The body of `update_event` after the eTag revalidation block, verbatim
from events.py lines 644-758: the two-sided and one-sided `start < end`
guards (the one-sided guards re-read the row fresh from the store, which in
this sequential model returns the row already fetched), the empty-update
check, the dynamic `UPDATE`, and the read-back of the updated row. -/
def update_event_rest (event_id : Nat) (upd : EventUpdate) (s : Store)
    (existing : EventRow) : HandlerResult EventRow × Store :=
  match upd.start_time, upd.end_time with
  | some ns, some ne =>
    if ne ≤ ns then
      (.error 400 "end_time must be after start_time", s)
    else
      updateWrite
  | some ns, none =>
    if existing.end_time ≤ ns then
      (.error 400 "start_time must be before existing end_time", s)
    else
      updateWrite
  | none, some ne =>
    if ne ≤ existing.start_time then
      (.error 400 "end_time must be after existing start_time", s)
    else
      updateWrite
  | none, none =>
    updateWrite
where
  /-- events.py lines 710-758: empty-field check, write, read-back. -/
  updateWrite : HandlerResult EventRow × Store :=
    if !upd.hasFields then
      (.error 400 "No fields to update", s)
    else
      let updated := applyUpdate upd existing
      let s2 : Store :=
        { s with events := s.events.map (fun e => if e.event_id = event_id then updated else e) }
      (.ok updated, s2)

/-- `update_event` (events.py lines 594-758): auth header, existence check,
creator-authorization check against the `created_by` query parameter, eTag
revalidation, then `update_event_rest`. -/
def update_event (uid : Option String) (event_id : Nat) (upd : EventUpdate)
    (created_by : Int) (if_match : Option String) (s : Store) :
    HandlerResult EventRow × Store :=
  if !uidPresent uid then
    (.error 401 authMissingDetail, s)
  else
    match findEvent s event_id with
    | none => (.error 404 "Event not found", s)
    | some existing =>
      if existing.created_by ≠ created_by then
        (.error 403 "You can only update events you created", s)
      else if etagMismatch s event_id existing if_match then
        (.error 412 "Precondition Failed: eTag mismatch", s)
      else
        update_event_rest event_id upd s existing

/-- `delete_event` (events.py lines 761-799): auth header, existence check,
creator-authorization check, then `DELETE FROM Events WHERE event_id = %s`. -/
def delete_event (uid : Option String) (event_id : Nat) (created_by : Int)
    (s : Store) : HandlerResult Nat × Store :=
  if !uidPresent uid then
    (.error 401 authMissingDetail, s)
  else
    match findEvent s event_id with
    | none => (.error 404 "Event not found", s)
    | some e =>
      if e.created_by ≠ created_by then
        (.error 403 "You can only delete events you created", s)
      else
        (.ok event_id,
         { s with events := s.events.filter (fun r => r.event_id ≠ event_id) })

/-- `update_event` with the eTag revalidation block (events.py lines 635-642)
removed.  Modelled from the spec: "the fingerprint revalidation step is
skipped entirely and the update proceeds unconditionally against the current
row (subject only to the existence, authorization, and start/end checks)";
compared against `update_event` with no `If-Match` header. -/
def update_event_noRevalidation (uid : Option String) (event_id : Nat)
    (upd : EventUpdate) (created_by : Int) (s : Store) :
    HandlerResult EventRow × Store :=
  if !uidPresent uid then
    (.error 401 authMissingDetail, s)
  else
    match findEvent s event_id with
    | none => (.error 404 "Event not found", s)
    | some existing =>
      if existing.created_by ≠ created_by then
        (.error 403 "You can only update events you created", s)
      else
        update_event_rest event_id upd s existing

/-- The query-parameter filters of `get_events` (events.py lines 193-198).
The date filters carry already-parsed day values (the handler compares
`DATE(column)` against the supplied `YYYY-MM-DD` string). -/
structure ListFilters where
  location : Option String := none
  created_by : Option Int := none
  start_date : Option Int := none
  end_date : Option Int := none
deriving Repr, DecidableEq

/-- The WHERE clause assembled at events.py lines 211-230.  Python truthiness:
`if location:` skips the filter for `None` and `""`; `if created_by:` skips it
for `None` and `0`.  `location LIKE '%l%'` is substring containment (a `NULL`
column never matches); `DATE(start_time) >= d` and `DATE(end_time) <= d` use
day granularity. -/
def matchesFilters (f : ListFilters) (e : EventRow) : Bool :=
  (match f.location with
   | none => true
   | some l =>
     if l = "" then true
     else match e.location with
       | none => false
       | some loc => charsContain loc.toList l.toList) &&
  (match f.created_by with
   | none => true
   | some c => if c = 0 then true else e.created_by == c) &&
  (match f.start_date with
   | none => true
   | some d => decide (d ≤ dateOf e.start_time)) &&
  (match f.end_date with
   | none => true
   | some d => decide (dateOf e.end_time ≤ d))

/-- The rows `SELECT COUNT(*)`/`SELECT ... WHERE {where_sql}` range over. -/
def filteredEvents (s : Store) (f : ListFilters) : List EventRow :=
  s.events.filter (matchesFilters f)

/-- Insert one row into a list sorted by `created_at` descending. -/
def insertDescByCreated (e : EventRow) : List EventRow → List EventRow
  | [] => [e]
  | x :: xs =>
    if e.created_at ≤ x.created_at then x :: insertDescByCreated e xs
    else e :: x :: xs

/-- `ORDER BY created_at DESC` (ties are unordered in SQL; any consistent
order is a faithful model). -/
def sortByCreatedAtDesc : List EventRow → List EventRow
  | [] => []
  | x :: xs => insertDescByCreated x (sortByCreatedAtDesc xs)

/-- A HATEOAS link object `{"href": ...}`. -/
structure Link where
  href : String
deriving Repr, DecidableEq

/-- `f"/events?skip={...}&limit={...}"` for natural skip values. -/
def pageHref (skip limit : Nat) : String :=
  s!"/events?skip={skip}&limit={limit}"

/-- `f"/events?skip={...}&limit={...}"` where the skip was computed with
Python integer arithmetic. -/
def pageHrefInt (skip : Int) (limit : Nat) : String :=
  s!"/events?skip={skip}&limit={limit}"

/-- The pagination links of the list response (events.py lines 287-293). -/
structure ListLinks where
  self : Link
  first : Link
  last : Link
  next : Option Link
  prev : Option Link
deriving Repr, DecidableEq

/-- The dictionary returned by `get_events` (events.py lines 281-294), plus
the collection `ETag` response header set at line 273. -/
structure ListResponse where
  items : List EventRow
  total : Nat
  skip : Nat
  limit : Nat
  has_more : Bool
  etag : String
  links : ListLinks
deriving Repr, DecidableEq

/-- The collection fingerprint
`generate_etag({"events": events, "total": total, "skip": skip, "limit": limit})`
(events.py line 272), under the same md5-as-canonical-serialization modelling
as `generate_etag_event`. -/
def collection_etag (s : Store) (rows : List EventRow) (total skip limit : Nat) :
    String :=
  "events:" ++
    String.join (rows.map (fun e =>
      generate_etag_event e (get_event_interests s e.event_id) ++ ";")) ++
  "|limit:" ++ toString limit ++
  "|skip:" ++ toString skip ++
  "|total:" ++ toString total

/-- The response body of `get_events` (events.py lines 189-294): filtered
count, filtered page ordered by `created_at DESC` with `LIMIT limit OFFSET
skip`, collection fingerprint, pagination metadata and links.
`skip_int`/`limit_int` reproduce the truthiness defaults of lines 278-280
(`int(skip) if skip else 0` is the identity on naturals; `int(limit) if limit
else 10` turns 0 into 10).  The per-item enrichment (interests, per-item
links, ISO date strings) is response shaping and is not modelled beyond the
raw rows. -/
def listResponse (s : Store) (skip limit : Nat) (f : ListFilters) :
    ListResponse :=
  let matching := filteredEvents s f
  let total := matching.length
  let page := ((sortByCreatedAtDesc matching).drop skip).take limit
  let skip_int := skip
  let limit_int := if limit = 0 then 10 else limit
  let lastSkip : Int :=
    max 0 (Int.fdiv ((total : Int) - 1) (limit_int : Int) * (limit_int : Int))
  { items := page
    total := total
    skip := skip_int
    limit := limit_int
    has_more := decide (skip_int + limit_int < total)
    etag := collection_etag s page total skip_int limit_int
    links :=
      { self := ⟨pageHref skip_int limit_int⟩
        first := ⟨pageHref 0 limit_int⟩
        last := ⟨pageHrefInt lastSkip limit_int⟩
        next :=
          if skip_int + limit_int < total then
            some ⟨pageHref (skip_int + limit_int) limit_int⟩
          else none
        -- `max(0, skip - limit)` is saturating subtraction on naturals
        prev :=
          if 0 < skip_int then some ⟨pageHref (skip_int - limit_int) limit_int⟩
          else none } }

/-- The `get_events` endpoint: 401 on a missing header, otherwise the list
response (no store statement mutates anything; the store is returned
unchanged). -/
def get_events (uid : Option String) (skip limit : Nat) (f : ListFilters)
    (s : Store) : HandlerResult ListResponse × Store :=
  if !uidPresent uid then
    (.error 401 authMissingDetail, s)
  else
    (.ok (listResponse s skip limit f), s)

/-- Outcome of `get_event`: the row with its fingerprint, or the `304 Not
Modified` short-circuit. -/
inductive GetEventOutcome where
  | found (e : EventRow) (etag : String)
  | notModified
deriving Repr, DecidableEq

/-- `get_event` (events.py lines 297-347): auth header, existence check,
fingerprint over the row with its interests, `If-None-Match` short-circuit. -/
def get_event (uid : Option String) (event_id : Nat)
    (if_none_match : Option String) (s : Store) :
    HandlerResult GetEventOutcome × Store :=
  if !uidPresent uid then
    (.error 401 authMissingDetail, s)
  else
    match findEvent s event_id with
    | none => (.error 404 "Event not found", s)
    | some e =>
      let tag := generate_etag_event e (get_event_interests s event_id)
      match if_none_match with
      | some v =>
        if stripQuoteChars v = tag then (.ok .notModified, s)
        else (.ok (.found e tag), s)
      | none => (.ok (.found e tag), s)

/-- The attributes the `create_event` / `create_event_async` handlers read
off their parsed request body (`event.title`, `event.description`,
`event.location`, `event.start_time`, `event.end_time`, `event.capacity`,
`event.created_by`; events.py lines 365, 378-385, 442, 452-471).  See the C7
analysis: the `EventCreate` schema in `src/model.py` does *not* declare the
`start_time`, `end_time`, `capacity` attributes this handler reads. -/
structure EventCreateReq where
  title : String
  description : Option String
  location : Option String
  start_time : DTime
  end_time : DTime
  capacity : Option Int
  created_by : Int
deriving Repr, DecidableEq

/-- `cur.lastrowid` of the `AUTO_INCREMENT` primary key: one past the
largest existing id. -/
def nextEventId (s : Store) : Nat :=
  (s.events.map (fun e => e.event_id)).foldr max 0 + 1

/-- The row materialized by the `INSERT INTO Events ...` of `create_event`
(events.py lines 374-390); `created_at` is filled by the column default from
the database clock. -/
def insertedEvent (s : Store) (req : EventCreateReq) : EventRow :=
  { event_id := nextEventId s
    title := req.title
    description := req.description
    location := req.location
    start_time := req.start_time
    end_time := req.end_time
    capacity := req.capacity
    created_by := req.created_by
    created_at := s.now }

/-- `create_event` (events.py lines 350-425): auth header, `start < end`
validation, insert, read-back of the inserted row (the `fetchone()` of the
fresh id; its `None` branch raising 500 is unreachable in this sequential
model of the store). -/
def create_event (uid : Option String) (req : EventCreateReq) (s : Store) :
    HandlerResult EventRow × Store :=
  if !uidPresent uid then
    (.error 401 authMissingDetail, s)
  else if req.end_time ≤ req.start_time then
    (.error 400 "end_time must be after start_time", s)
  else
    let row := insertedEvent s req
    (.ok row, { s with events := s.events ++ [row] })

/-- `json.dumps(event_dict, default=str)` of the request payload stored in
the task ledger (events.py line 470), modelled as a canonical key-sorted
serialization. -/
def serializeEventCreate (r : EventCreateReq) : String :=
  "capacity:" ++ optIntField r.capacity ++
  "|created_by:" ++ toString r.created_by ++
  "|description:" ++ optField r.description ++
  "|end_time:" ++ toString r.end_time ++
  "|location:" ++ optField r.location ++
  "|start_time:" ++ toString r.start_time ++
  "|title:" ++ r.title

/-- The `Tasks` row inserted by `create_event_async` (events.py lines
463-472): state `pending`, no result, no error, no timestamps beyond
`created_at`. -/
def initialTask (req : EventCreateReq) (task_id : String) (now : DTime) :
    TaskRow :=
  { task_id := task_id
    task_type := "create_event"
    status := .pending
    request_data := serializeEventCreate req
    result_data := none
    error_message := none
    created_at := now
    started_at := none
    completed_at := none
    created_by := req.created_by }

/-- The `202 Accepted` body of `create_event_async`. -/
structure AsyncAccepted where
  task_id : String
  status : TaskStatus
deriving Repr, DecidableEq

/-- `create_event_async` (events.py lines 428-502): auth header, `start <
end` validation, insert of the pending task row keyed by the fresh task id
(the `uuid4()` value is a parameter), `202 Accepted`.  The background thread
it spawns is modelled separately by `executorSteps`. -/
def create_event_async (uid : Option String) (req : EventCreateReq)
    (new_task_id : String) (s : Store) : HandlerResult AsyncAccepted × Store :=
  if !uidPresent uid then
    (.error 401 authMissingDetail, s)
  else if req.end_time ≤ req.start_time then
    (.error 400 "end_time must be after start_time", s)
  else
    (.ok { task_id := new_task_id, status := .pending },
     { s with tasks := s.tasks ++ [initialTask req new_task_id s.now] })

/-- `SELECT ... FROM Tasks WHERE task_id = %s` followed by `fetchone()`. -/
def findTask (s : Store) (task_id : String) : Option TaskRow :=
  s.tasks.find? (fun t => t.task_id == task_id)

/-- The polling response assembled by `get_task_status` (events.py lines
530-588): base fields always, `event`/`completed_at` only in state
`completed`, `error`/`failed_at` only in state `failed`. -/
structure TaskStatusResponse where
  task_id : String
  task_type : String
  status : TaskStatus
  created_at : Option DTime
  started_at : Option DTime
  completed_at : Option DTime
  event : Option String
  error : Option String
  failed_at : Option DTime
deriving Repr, DecidableEq

/-- Build the `get_task_status` response dictionary from the task row. -/
def mkTaskStatusResponse (t : TaskRow) : TaskStatusResponse :=
  let base : TaskStatusResponse :=
    { task_id := t.task_id
      task_type := t.task_type
      status := t.status
      created_at := some t.created_at
      started_at := t.started_at
      completed_at := none
      event := none
      error := none
      failed_at := none }
  match t.status with
  | .completed => { base with event := t.result_data, completed_at := t.completed_at }
  | .failed => { base with error := t.error_message, failed_at := t.completed_at }
  | _ => base

/-- `get_task_status` (events.py lines 505-591): auth header, ledger lookup,
404 for an unknown task id, otherwise the status snapshot. -/
def get_task_status (uid : Option String) (task_id : String) (s : Store) :
    HandlerResult TaskStatusResponse × Store :=
  if !uidPresent uid then
    (.error 401 authMissingDetail, s)
  else
    match findTask s task_id with
    | none => (.error 404 "Task not found", s)
    | some t => (.ok (mkTaskStatusResponse t), s)

/-!
## Background executor (`process_event_async`, events.py lines 89-183)

The worker runs a sequence of store statements inside a `try` block; any of
them can raise (lost connection, SQL error, ...), in which case control moves
to the `except` block, whose own `UPDATE Tasks SET status = 'failed', ...`
may in turn succeed or fail.  Each `execute`+`commit` pair is one atomic
step.  `time.sleep(2)` and local dictionary/JSON shaping have no store effect
and cannot fail, and the trailing `close()` calls are modelled as
non-fallible, so the fallible steps of the `try` block are, in source order:

0. `get_connection()` / `cursor()`                          (lines 92-93)
1. `UPDATE Tasks SET status = 'processing', started_at ...` (lines 96-101)
2. `INSERT INTO Events ...`                                 (lines 107-122)
3. the read-back `SELECT ... WHERE event_id = %s`           (lines 126-134)
4. `UPDATE Tasks SET status = 'completed', ...`             (lines 155-162),
   executed only when the read-back returned a row (`if created_event:`).
-/

/-- One fallible statement of `process_event_async`. -/
inductive ExecStep where
  | connect
  | setProcessing
  | insertEvent
  | fetchCreated
  | setCompleted
  | setFailed
deriving Repr, DecidableEq

/-- The statements of the `try` block, in source order; `fetchOk` tells
whether the read-back at step 3 returned a row (its `None` case leaves the
task in `processing` forever). -/
def trySteps (fetchOk : Bool) : List ExecStep :=
  [.connect, .setProcessing, .insertEvent, .fetchCreated] ++
  (if fetchOk then [.setCompleted] else [])

/-- The statements `process_event_async` actually executes.  `failAt = some
k` means the `try` block's step `k` raised (its effect did not commit; a
value at or beyond the block length means no step raised); `handlerOk` tells
whether the `except` block's own `UPDATE ... SET status = 'failed'` (events.py
lines 170-179) committed or itself raised (lines 182-183). -/
def executorSteps (failAt : Option Nat) (fetchOk handlerOk : Bool) :
    List ExecStep :=
  match failAt with
  | none => trySteps fetchOk
  | some k =>
    if k < (trySteps fetchOk).length then
      (trySteps fetchOk).take k ++ (if handlerOk then [ExecStep.setFailed] else [])
    else
      trySteps fetchOk

/-- The `status` column value a step writes, if any. -/
def stepStatusWrite : ExecStep → Option TaskStatus
  | .setProcessing => some .processing
  | .setCompleted => some .completed
  | .setFailed => some .failed
  | _ => none

/-- Effect of one committed step on the task's row.  `now` is the database
clock at the write, `res` the serialized created event
(`json.dumps(event_dict)`), `err` the captured exception message. -/
def applyExecStep (now : DTime) (res err : String) :
    ExecStep → TaskRow → TaskRow
  | .setProcessing, t => { t with status := .processing, started_at := some now }
  | .setCompleted, t =>
    { t with status := .completed, completed_at := some now, result_data := some res }
  | .setFailed, t =>
    { t with status := .failed, completed_at := some now, error_message := some err }
  | _, t => t

/-- Successive states of the `Tasks` row under a step list, starting from
the row `create_event_async` inserted. -/
def taskRowTrace (now : DTime) (res err : String) :
    TaskRow → List ExecStep → List TaskRow
  | t, [] => [t]
  | t, st :: rest => t :: taskRowTrace now res err (applyExecStep now res err st t) rest

/-- The sequence of `status` values the row takes over time: the initial
`pending` written by `create_event_async`, then every status write the
executor commits. -/
def taskStatusTrace (failAt : Option Nat) (fetchOk handlerOk : Bool) :
    List TaskStatus :=
  TaskStatus.pending ::
    (executorSteps failAt fetchOk handlerOk).filterMap stepStatusWrite

/-- Is `pat` an initial segment of ... -/
def isInitialSegment : List TaskStatus → List TaskStatus → Bool
  | [], _ => true
  | _ :: _, [] => false
  | a :: as, b :: bs => a = b && isInitialSegment as bs

/-- Scanning left to right, the `processing` status write comes strictly
before any `INSERT INTO Events` (true also when no insert happens at all). -/
def processingBeforeInsert : List ExecStep → Bool
  | [] => true
  | ExecStep.setProcessing :: _ => true
  | ExecStep.insertEvent :: _ => false
  | _ :: rest => processingBeforeInsert rest

/-- Progress rank of a status: terminal states rank equal. -/
def statusRank : TaskStatus → Nat
  | .pending => 0
  | .processing => 1
  | .completed => 2
  | .failed => 2

/-- Status ranks never decrease along the trace (no reverts). -/
def ranksMonotone : List TaskStatus → Bool
  | [] => true
  | [_] => true
  | a :: b :: rest => Nat.ble (statusRank a) (statusRank b) && ranksMonotone (b :: rest)

/-- After the first `processing` entry of the trace, every status has rank
at least `processing`: a poll issued after the durable processing-transition
observes at least `processing`. -/
def atLeastProcessingAfter : List TaskStatus → Bool
  | [] => true
  | TaskStatus.processing :: rest => rest.all (fun st => Nat.ble 1 (statusRank st))
  | _ :: rest => atLeastProcessingAfter rest

/-!
## Schema of `src/model.py` versus the handlers (claim C7)
-/

/-- The field names the `EventCreate` request schema actually declares
(`src/model.py` lines 27-34: `EventBase` fields `title`, `description`,
`location`, `event_time` plus `EventCreate`'s `created_by`). -/
def eventCreateModelFields : List String :=
  ["title", "description", "location", "event_time", "created_by"]

/-- The attribute names the `create_event` handler reads off its parsed
`EventCreate` body (events.py lines 365 and 378-385). -/
def createEventAttrReads : List String :=
  ["end_time", "start_time", "title", "description", "location", "capacity",
   "created_by"]

/-- The step lists `process_event_async` can actually execute, enumerating
the failure point and the two boolean outcomes (read-back row present,
except-block write committed). -/
def execStepLists : List (List ExecStep) :=
  [[.connect, .setProcessing, .insertEvent, .fetchCreated, .setCompleted],
   [.connect, .setProcessing, .insertEvent, .fetchCreated],
   [],
   [.setFailed],
   [.connect],
   [.connect, .setFailed],
   [.connect, .setProcessing],
   [.connect, .setProcessing, .setFailed],
   [.connect, .setProcessing, .insertEvent],
   [.connect, .setProcessing, .insertEvent, .setFailed],
   [.connect, .setProcessing, .insertEvent, .fetchCreated, .setFailed]]

/-!
## Concrete fixtures used by the witness theorems
-/

/-- A one-row store fixture. -/
def demoEvent : EventRow :=
  { event_id := 1, title := "t", description := none, location := none,
    start_time := 0, end_time := 10, capacity := none, created_by := 7,
    created_at := 5 }

/-- A store holding exactly `demoEvent`. -/
def demoStoreOne : Store :=
  { events := [demoEvent], tasks := [], interests := [], eventInterests := [],
    now := 100 }

/-- The `i`-th of 25 identical-shaped rows. -/
def mkDemoEvent (i : Nat) : EventRow :=
  { event_id := i + 1, title := "e", description := none, location := none,
    start_time := 0, end_time := 1, capacity := none, created_by := 1,
    created_at := (i : Int) }

/-- A store holding exactly 25 events, all matching the empty filter set. -/
def demoStore25 : Store :=
  { events := (List.range 25).map mkDemoEvent, tasks := [], interests := [],
    eventInterests := [], now := 0 }

/-- A task fixture sitting in state `processing`. -/
def demoTask : TaskRow :=
  { task_id := "t1", task_type := "create_event", status := .processing,
    request_data := "r", result_data := none, error_message := none,
    created_at := 0, started_at := some 1, completed_at := none,
    created_by := 1 }

/-- A store holding exactly `demoTask`. -/
def demoStoreTask : Store :=
  { events := [], tasks := [demoTask], interests := [], eventInterests := [],
    now := 2 }

/-!
## Theorems
-/

/-- C8: every public endpoint (list, get, create, create-async,
get-task-status, update, delete) rejects a request lacking an
`x-firebase-uid` header with a 401 error before issuing any store statement,
leaving all state unchanged: with header `none` each handler returns exactly
the 401 raised by `get_firebase_uid_from_header` and the untouched store. -/
theorem C8_missing_uid_unauthorized (s : Store) (skip limit : Nat)
    (f : ListFilters) (eid : Nat) (inm ifm : Option String)
    (req : EventCreateReq) (tid : String) (upd : EventUpdate) (cb : Int) :
    get_events none skip limit f s = (.error 401 authMissingDetail, s) ∧
    get_event none eid inm s = (.error 401 authMissingDetail, s) ∧
    create_event none req s = (.error 401 authMissingDetail, s) ∧
    create_event_async none req tid s = (.error 401 authMissingDetail, s) ∧
    get_task_status none tid s = (.error 401 authMissingDetail, s) ∧
    update_event none eid upd cb ifm s = (.error 401 authMissingDetail, s) ∧
    delete_event none eid cb s = (.error 401 authMissingDetail, s) :=
  ⟨rfl, rfl, rfl, rfl, rfl, rfl, rfl⟩

/-- C10: the authorization outcome of `update_event` and `delete_event`
depends only on the `created_by` query parameter and the stored row, not on
the authenticated caller identity: two requests differing only in their
(non-empty) `x-firebase-uid` header values produce identical results on an
identical store. -/
theorem C10_auth_ignores_caller_identity (u1 u2 : String) (h1 : u1 ≠ "")
    (h2 : u2 ≠ "") (s : Store) (eid : Nat) (upd : EventUpdate) (cb : Int)
    (ifm : Option String) :
    update_event (some u1) eid upd cb ifm s =
      update_event (some u2) eid upd cb ifm s ∧
    delete_event (some u1) eid cb s = delete_event (some u2) eid cb s := by
  have p1 : uidPresent (some u1) = true := by simp [uidPresent, h1]
  have p2 : uidPresent (some u2) = true := by simp [uidPresent, h2]
  constructor
  · simp [update_event, p1, p2]
  · simp [delete_event, p1, p2]

/-- Witness for C10 at a concrete store and two concrete header values. -/
theorem C10_witness :
    ("alice" ≠ "" ∧ "mallory" ≠ "") ∧
    update_event (some "alice") 1 {} 7 none demoStoreOne =
      update_event (some "mallory") 1 {} 7 none demoStoreOne ∧
    delete_event (some "alice") 1 7 demoStoreOne =
      delete_event (some "mallory") 1 7 demoStoreOne :=
  ⟨⟨by decide, by decide⟩,
   C10_auth_ignores_caller_identity "alice" "mallory" (by decide) (by decide)
     demoStoreOne 1 {} 7 none⟩

/-- C4: an `update_event` or `delete_event` request on an existing row whose
caller identity — the `created_by` the service resolves for the caller, i.e.
the mandatory `created_by` query parameter it trusts — differs from the
stored `created_by` yields 403 Forbidden and leaves the store untouched. -/
theorem C4_creator_mismatch_forbidden (uid : String) (hu : uid ≠ "")
    (s : Store) (eid : Nat) (upd : EventUpdate) (cb : Int) (ifm : Option String)
    (e : EventRow) (hfind : findEvent s eid = some e)
    (hcb : e.created_by ≠ cb) :
    update_event (some uid) eid upd cb ifm s =
      (.error 403 "You can only update events you created", s) ∧
    delete_event (some uid) eid cb s =
      (.error 403 "You can only delete events you created", s) := by
  have p : uidPresent (some uid) = true := by simp [uidPresent, hu]
  constructor
  · simp [update_event, p, hfind, hcb]
  · simp [delete_event, p, hfind, hcb]

/-- Witness for C4: caller claiming user 8 against a row created by user 7. -/
theorem C4_witness :
    ("u" ≠ "" ∧ findEvent demoStoreOne 1 = some demoEvent ∧
      demoEvent.created_by ≠ 8) ∧
    update_event (some "u") 1 {} 8 none demoStoreOne =
      (.error 403 "You can only update events you created", demoStoreOne) ∧
    delete_event (some "u") 1 8 demoStoreOne =
      (.error 403 "You can only delete events you created", demoStoreOne) :=
  ⟨⟨by decide, rfl, by decide⟩,
   C4_creator_mismatch_forbidden "u" (by decide) demoStoreOne 1 {} 8 none
     demoEvent rfl (by decide)⟩

/-- C2: an `update_event` request that reaches the fingerprint revalidation
(row exists, creator authorized) and supplies an `If-Match` validator whose
(quote-stripped) value differs from the fingerprint recomputed over the
current row is rejected with 412 Precondition Failed, the store unchanged. -/
theorem C2_etag_mismatch_rejected (uid : String) (hu : uid ≠ "") (s : Store)
    (eid : Nat) (upd : EventUpdate) (cb : Int) (v : String) (e : EventRow)
    (hfind : findEvent s eid = some e) (hcb : e.created_by = cb)
    (hmis : stripQuoteChars v ≠ generate_etag_event e (get_event_interests s eid)) :
    update_event (some uid) eid upd cb (some v) s =
      (.error 412 "Precondition Failed: eTag mismatch", s) := by
  have p : uidPresent (some uid) = true := by simp [uidPresent, hu]
  have hm : etagMismatch s eid e (some v) = true := by
    simp [etagMismatch, hmis]
  simp [update_event, p, hfind, hcb, hm]

/-- Witness for C2: validator `"x"` against the fingerprint of `demoEvent`. -/
theorem C2_witness :
    ("u" ≠ "" ∧ findEvent demoStoreOne 1 = some demoEvent ∧
      demoEvent.created_by = 7 ∧
      stripQuoteChars "x" ≠
        generate_etag_event demoEvent (get_event_interests demoStoreOne 1)) ∧
    update_event (some "u") 1 {} 7 (some "x") demoStoreOne =
      (.error 412 "Precondition Failed: eTag mismatch", demoStoreOne) :=
  ⟨⟨by decide, rfl, by decide, by decide⟩,
   C2_etag_mismatch_rejected "u" (by decide) demoStoreOne 1 {} 7 "x" demoEvent
     rfl (by decide) (by decide)⟩

/-- C5: an `update_event` request that passes the existence, authorization
and revalidation checks and supplies only `end_time` (no `start_time`), with
the new end at or before the existing row's `start_time`, is rejected with
400 InvalidInput and no write is issued against the Events table. -/
theorem C5_only_end_at_or_before_start_rejected (uid : String) (hu : uid ≠ "")
    (s : Store) (eid : Nat) (upd : EventUpdate) (cb : Int) (ifm : Option String)
    (e : EventRow) (hfind : findEvent s eid = some e) (hcb : e.created_by = cb)
    (hetag : etagMismatch s eid e ifm = false) (ne : DTime)
    (hend : upd.end_time = some ne) (hstart : upd.start_time = none)
    (hle : ne ≤ e.start_time) :
    update_event (some uid) eid upd cb ifm s =
      (.error 400 "end_time must be after existing start_time", s) := by
  have p : uidPresent (some uid) = true := by simp [uidPresent, hu]
  simp [update_event, p, hfind, hcb, hetag, update_event_rest, hstart, hend,
    hle]

/-- Witness for C5: supplying only `end_time = 0` against a row whose
`start_time` is 0. -/
theorem C5_witness :
    ("u" ≠ "" ∧ findEvent demoStoreOne 1 = some demoEvent ∧
      demoEvent.created_by = 7 ∧
      etagMismatch demoStoreOne 1 demoEvent none = false ∧
      ({ end_time := some 0 : EventUpdate }).end_time = some 0 ∧
      ({ end_time := some 0 : EventUpdate }).start_time = none ∧
      (0 : DTime) ≤ demoEvent.start_time) ∧
    update_event (some "u") 1 { end_time := some 0 } 7 none demoStoreOne =
      (.error 400 "end_time must be after existing start_time", demoStoreOne) :=
  ⟨⟨by decide, rfl, by decide, rfl, rfl, rfl, by decide⟩,
   C5_only_end_at_or_before_start_rejected "u" (by decide) demoStoreOne 1
     { end_time := some 0 } 7 none demoEvent rfl (by decide) rfl 0 rfl rfl
     (by decide)⟩

/-- Helper: after the exists/authorized/revalidation gates, the rest of the
update path only ever raises 400 (or succeeds). -/
lemma update_event_rest_code_cases (eid : Nat) (upd : EventUpdate) (s : Store)
    (e : EventRow) :
    (update_event_rest eid upd s e).1.code = none ∨
    (update_event_rest eid upd s e).1.code = some 400 := by
  unfold update_event_rest update_event_rest.updateWrite
  rcases hs : upd.start_time with _ | ns <;> rcases he : upd.end_time with _ | ne <;>
    simp [HandlerResult.code] <;> split_ifs <;> simp [HandlerResult.code]

/-- C9: an `update_event` request that supplies no `If-Match` header skips
the fingerprint revalidation entirely — it behaves exactly like the update
path with the revalidation block removed, and in particular can never answer
412 — proceeding unconditionally subject only to the existence,
authorization and start/end checks. -/
theorem C9_no_validator_skips_revalidation (uid : Option String) (eid : Nat)
    (upd : EventUpdate) (cb : Int) (s : Store) :
    update_event uid eid upd cb none s =
      update_event_noRevalidation uid eid upd cb s ∧
    (update_event uid eid upd cb none s).1.code ≠ some 412 := by
  have heq : update_event uid eid upd cb none s =
      update_event_noRevalidation uid eid upd cb s := by
    simp [update_event, update_event_noRevalidation, etagMismatch]
  refine ⟨heq, ?_⟩
  rw [heq]
  unfold update_event_noRevalidation
  split
  · simp [HandlerResult.code]
  · split
    · simp [HandlerResult.code]
    · split
      · simp [HandlerResult.code]
      · rename_i existing hfind hne
        rcases update_event_rest_code_cases eid upd s existing with h | h <;>
          simp [h]

/-- C6: `has_more` and the presence of the `next`/`prev` links of a list
response are determined purely by skip, limit and total (`has_more` iff
`skip + limit < total`; `next` present iff `skip + limit < total`; `prev`
present iff `skip > 0`); in particular over 25 matching rows,
`skip=0, limit=10` yields `has_more = true` with a next link, and
`skip=20, limit=10` yields `has_more = false` with a prev link and no next
link. -/
theorem C6_pagination (s : Store) (f : ListFilters) (uid : String)
    (hu : uid ≠ "") :
    (∀ skip limit : Nat, 1 ≤ limit →
      (get_events (some uid) skip limit f s).1 =
        .ok (listResponse s skip limit f) ∧
      (get_events (some uid) skip limit f s).2 = s ∧
      (listResponse s skip limit f).total = (filteredEvents s f).length ∧
      (listResponse s skip limit f).has_more =
        decide (skip + limit < (filteredEvents s f).length) ∧
      (listResponse s skip limit f).links.next.isSome =
        decide (skip + limit < (filteredEvents s f).length) ∧
      (listResponse s skip limit f).links.prev.isSome = decide (0 < skip)) ∧
    ((filteredEvents s f).length = 25 →
      ((listResponse s 0 10 f).has_more = true ∧
        (listResponse s 0 10 f).links.next.isSome = true) ∧
      ((listResponse s 20 10 f).has_more = false ∧
        (listResponse s 20 10 f).links.prev.isSome = true ∧
        (listResponse s 20 10 f).links.next = none)) := by
  have p : uidPresent (some uid) = true := by simp [uidPresent, hu]
  constructor
  · intro skip limit hl
    have hlz : limit ≠ 0 := by omega
    have hlim : (if limit = 0 then 10 else limit) = limit := if_neg hlz
    refine ⟨by simp [get_events, p], by simp [get_events, p], rfl, ?_, ?_, ?_⟩
    · simp [listResponse, hlim]
    · simp only [listResponse, hlim]
      by_cases h : skip + limit < (filteredEvents s f).length <;> simp [h]
    · simp only [listResponse]
      by_cases h : 0 < skip <;> simp [h]
  · intro h25
    refine ⟨⟨?_, ?_⟩, ?_, ?_, ?_⟩ <;> simp [listResponse, h25]

/-- Witness for C6 over a concrete 25-row store with the empty filter set. -/
theorem C6_witness :
    ("u" ≠ "" ∧ (filteredEvents demoStore25 {}).length = 25) ∧
    ((listResponse demoStore25 0 10 {}).has_more = true ∧
      (listResponse demoStore25 0 10 {}).links.next.isSome = true) ∧
    ((listResponse demoStore25 20 10 {}).has_more = false ∧
      (listResponse demoStore25 20 10 {}).links.prev.isSome = true ∧
      (listResponse demoStore25 20 10 {}).links.next = none) :=
  ⟨⟨by decide, by decide⟩,
   (C6_pagination demoStore25 {} "u" (by decide)).2 (by decide)⟩

/-- Helper: every step list the executor can run is one of the eleven
enumerated lists. -/
lemma executorSteps_mem (failAt : Option Nat) (fetchOk handlerOk : Bool) :
    executorSteps failAt fetchOk handlerOk ∈ execStepLists := by
  rcases failAt with _ | k
  · cases fetchOk <;> cases handlerOk <;> decide
  · rcases Nat.lt_or_ge k 5 with hk | hk
    · interval_cases k <;> cases fetchOk <;> cases handlerOk <;> decide
    · have h5 : ¬ k < (trySteps fetchOk).length := by
        cases fetchOk <;> simp [trySteps] <;> omega
      simp only [executorSteps, if_neg h5]
      cases fetchOk <;> cases handlerOk <;> decide

/-- Helper: the trace properties of claim C3, checked on each of the eleven
possible step lists. -/
lemma stepTraceProps (L : List ExecStep) (h : L ∈ execStepLists) :
    processingBeforeInsert L = true ∧
    ranksMonotone (TaskStatus.pending :: L.filterMap stepStatusWrite) = true ∧
    atLeastProcessingAfter (TaskStatus.pending :: L.filterMap stepStatusWrite) =
      true := by
  fin_cases h <;> exact ⟨by decide, by decide, by decide⟩

/-- Helper: along every executable step list, the task row has `result_data`
set exactly in state `completed` and `error_message` set exactly in state
`failed`. -/
lemma rowTraceConsistent (L : List ExecStep) (hL : L ∈ execStepLists)
    (req : EventCreateReq) (tid : String) (now0 now : DTime)
    (res err : String) :
    ∀ t ∈ taskRowTrace now res err (initialTask req tid now0) L,
      (t.result_data.isSome ↔ t.status = TaskStatus.completed) ∧
      (t.error_message.isSome ↔ t.status = TaskStatus.failed) := by
  fin_cases hL <;>
    (intro t ht
     simp only [taskRowTrace, applyExecStep] at ht
     fin_cases ht <;> simp [initialTask])

/-- C1 (counterexample): when the executor's very first statement
(`get_connection()`, events.py line 92) raises and the except block's own
write succeeds, the task's status sequence is `[pending, failed]`, which is a
prefix of neither `[pending, processing, completed]` nor
`[pending, processing, failed]` — the claim as stated is false. -/
theorem C1_counterexample :
    taskStatusTrace (some 0) true true =
      [TaskStatus.pending, TaskStatus.failed] ∧
    isInitialSegment (taskStatusTrace (some 0) true true)
      [TaskStatus.pending, TaskStatus.processing, TaskStatus.completed] =
      false ∧
    isInitialSegment (taskStatusTrace (some 0) true true)
      [TaskStatus.pending, TaskStatus.processing, TaskStatus.failed] =
      false := by
  decide

/-- C1 (amended): the status sequence of every task is a prefix of
`[pending, processing, completed]` or of `[pending, processing, failed]`, or
is the direct failure sequence `[pending, failed]` arising when the executor
fails before the processing write commits; a status never reverts, at most
one terminal state is reached, `result_data` is set iff the task is
completed, and `error_message` is set iff the task is failed. -/
theorem C1_task_lifecycle (failAt : Option Nat) (fetchOk handlerOk : Bool)
    (req : EventCreateReq) (tid : String) (now0 now : DTime)
    (res err : String) :
    (taskStatusTrace failAt fetchOk handlerOk = [TaskStatus.pending] ∨
     taskStatusTrace failAt fetchOk handlerOk =
       [TaskStatus.pending, TaskStatus.processing] ∨
     taskStatusTrace failAt fetchOk handlerOk =
       [TaskStatus.pending, TaskStatus.processing, TaskStatus.completed] ∨
     taskStatusTrace failAt fetchOk handlerOk =
       [TaskStatus.pending, TaskStatus.processing, TaskStatus.failed] ∨
     taskStatusTrace failAt fetchOk handlerOk =
       [TaskStatus.pending, TaskStatus.failed]) ∧
    (∀ t ∈ taskRowTrace now res err (initialTask req tid now0)
        (executorSteps failAt fetchOk handlerOk),
      (t.result_data.isSome ↔ t.status = TaskStatus.completed) ∧
      (t.error_message.isSome ↔ t.status = TaskStatus.failed)) := by
  refine ⟨?_, rowTraceConsistent _ (executorSteps_mem failAt fetchOk handlerOk)
    req tid now0 now res err⟩
  have hmem := executorSteps_mem failAt fetchOk handlerOk
  simp only [taskStatusTrace]
  revert hmem
  generalize executorSteps failAt fetchOk handlerOk = L
  intro hmem
  fin_cases hmem <;> decide

/-- C3: the executor writes the pending-to-processing transition (recording
`started_at`) strictly before it issues the Event insert; the status rank
never decreases afterwards, so every status the row takes after the durable
processing-transition is at least `processing`, and a poll of
`get_task_status` reports exactly the stored status — hence a poll issued
after the processing-transition observes status at least `processing`. -/
theorem C3_processing_precedes_insert (failAt : Option Nat)
    (fetchOk handlerOk : Bool) :
    processingBeforeInsert (executorSteps failAt fetchOk handlerOk) = true ∧
    ranksMonotone (taskStatusTrace failAt fetchOk handlerOk) = true ∧
    atLeastProcessingAfter (taskStatusTrace failAt fetchOk handlerOk) = true ∧
    (∀ (t : TaskRow) (now : DTime) (res err : String),
      (applyExecStep now res err .setProcessing t).status =
        TaskStatus.processing ∧
      (applyExecStep now res err .setProcessing t).started_at = some now) ∧
    (∀ (s : Store) (uid tid : String) (t : TaskRow), uid ≠ "" →
      findTask s tid = some t →
      (get_task_status (some uid) tid s).1 = .ok (mkTaskStatusResponse t) ∧
      (mkTaskStatusResponse t).status = t.status) := by
  obtain ⟨h1, h2, h3⟩ :=
    stepTraceProps _ (executorSteps_mem failAt fetchOk handlerOk)
  refine ⟨h1, ?_, ?_, ?_, ?_⟩
  · simpa [taskStatusTrace] using h2
  · simpa [taskStatusTrace] using h3
  · intro t now res err
    exact ⟨rfl, rfl⟩
  · intro s uid tid t hu hfind
    have p : uidPresent (some uid) = true := by simp [uidPresent, hu]
    constructor
    · simp [get_task_status, p, hfind]
    · cases h : t.status <;> simp [mkTaskStatusResponse, h]

/-- Witness for C3 at a concrete failure-free execution and a concrete store
holding a `processing` task. -/
theorem C3_witness :
    processingBeforeInsert (executorSteps none true true) = true ∧
    ("u" ≠ "" ∧ findTask demoStoreTask "t1" = some demoTask) ∧
    (get_task_status (some "u") "t1" demoStoreTask).1 =
      .ok (mkTaskStatusResponse demoTask) ∧
    (mkTaskStatusResponse demoTask).status = demoTask.status :=
  ⟨(C3_processing_precedes_insert none true true).1,
   ⟨by decide, rfl⟩,
   (C3_processing_precedes_insert none true true).2.2.2.2 demoStoreTask "u"
     "t1" demoTask (by decide) rfl⟩

/-- C7 (schema/handler mismatch): the `create_event` handler reads the
`start_time` and `end_time` attributes off its parsed `EventCreate` body,
but the `EventCreate` schema of `src/model.py` does not declare them (it
declares `event_time` instead), so a create request carrying
`start_time < end_time` cannot round-trip: the handler's attribute access
fails on every request. -/
theorem C7_model_handler_field_mismatch :
    "start_time" ∈ createEventAttrReads ∧
    "start_time" ∉ eventCreateModelFields ∧
    "end_time" ∈ createEventAttrReads ∧
    "end_time" ∉ eventCreateModelFields ∧
    "event_time" ∈ eventCreateModelFields := by
  decide
